import Mathlib

/-!
# Verification of the Browsey browser shell (src/browser.py)

A shallow embedding of the core logic of `src/browser.py`: the ad-block
request interceptor, the ad-block toggle, the extension scanner and
injector, the bookmark encode/decode pair, and `normalize_url`.

Python strings are modelled as `List Char` (`PyStr`), Python's `in`
substring test as `isSubstr`, `str.lower` as `lowerStr` (per-character
`Char.toLower`, which covers the ASCII range the source's patterns use),
and `str.strip` as `pyStrip`.  The Qt settings backend is modelled as an
explicit value passed to the functions that read it; `QUrl(text)` is
modelled as the text itself (the source only ever converts it back with
`toString`).
-/

/-- Python strings, modelled as their list of characters. -/
abbrev PyStr := List Char

/-- Coerce a Lean string literal into the model's string type. -/
def pystr (s : String) : PyStr := s.data

/-- Python's `needle in hay` prefix worker: does `hay` start with `needle`? -/
def isPrefixL : PyStr → PyStr → Bool
  | [], _ => true
  | _ :: _, [] => false
  | a :: as, b :: bs => a == b && isPrefixL as bs

/-- Python's substring operator `needle in hay` (`str.__contains__`). -/
def isSubstr (needle : PyStr) : PyStr → Bool
  | [] => isPrefixL needle []
  | b :: bs => isPrefixL needle (b :: bs) || isSubstr needle bs

/-- Python's `str.lower`, modelled per character (basic-latin range). -/
def lowerStr (s : PyStr) : PyStr := s.map Char.toLower

/-- Python's `str.strip()`: drop whitespace from both ends. -/
def pyStrip (s : PyStr) : PyStr :=
  ((s.dropWhile Char.isWhitespace).reverse.dropWhile Char.isWhitespace).reverse

theorem isPrefixL_iff (n : PyStr) : ∀ h : PyStr, isPrefixL n h = true ↔ n <+: h := by
  induction n with
  | nil => intro h; simp [isPrefixL]
  | cons a as ih =>
    intro h
    cases h with
    | nil => simp [isPrefixL]
    | cons b bs =>
      simp only [isPrefixL, Bool.and_eq_true, beq_iff_eq, ih, List.cons_prefix_cons]

theorem isSubstr_iff (n : PyStr) : ∀ h : PyStr, isSubstr n h = true ↔ n <:+: h := by
  intro h
  induction h with
  | nil =>
    simp [isSubstr, isPrefixL_iff, List.infix_nil, List.prefix_nil]
  | cons b bs ih =>
    simp only [isSubstr, Bool.or_eq_true, isPrefixL_iff, ih, List.infix_cons_iff]

theorem isSubstr_singleton (c : Char) : ∀ l : PyStr, isSubstr [c] l = l.contains c := by
  intro l
  induction l with
  | nil => rfl
  | cons b bs ih =>
    simp only [isSubstr, isPrefixL, Bool.and_true, List.contains_cons, ih]

theorem charToNat_ofNat_valid (n : Nat) (h : n.isValidChar) : (Char.ofNat n).toNat = n := by
  rw [Char.ofNat, dif_pos h]
  rfl

theorem charToLower_idem (c : Char) : c.toLower.toLower = c.toLower := by
  unfold Char.toLower
  by_cases h : c.toNat ≥ 65 ∧ c.toNat ≤ 90
  · rw [if_pos h]
    have hv : (c.toNat + 32).isValidChar := Or.inl (by omega)
    rw [charToNat_ofNat_valid _ hv]
    rw [if_neg (by omega)]
  · rw [if_neg h, if_neg h]

theorem lowerStr_idem (s : PyStr) : lowerStr (lowerStr s) = lowerStr s := by
  unfold lowerStr
  rw [List.map_map]
  exact List.map_congr_left fun c _ => charToLower_idem c

/-! ## The ad-block request filter (`SimpleAdblockInterceptor`, src/browser.py:42-75) -/

/-- The built-in default rule set of `SimpleAdblockInterceptor.__init__`, verbatim. -/
def default_patterns : List PyStr :=
  [ pystr "doubleclick.net",
    pystr "googlesyndication",
    pystr "adservice.google.",
    pystr "pagead2.googlesyndication.com",
    pystr "/ads?",
    pystr "/adserver",
    pystr ".ads.",
    pystr "ads.",
    pystr "advert",
    pystr "adclick",
    pystr "tracking",
    pystr "analytics.js",
    pystr "googletagservices",
    pystr "adsystem" ]

/-- The interceptor's only state: its pattern list. -/
structure SimpleAdblockInterceptor where
  patterns : List PyStr
deriving DecidableEq

/-- `patterns or [...defaults...]` in `__init__`: Python's `or` falls through to
the defaults when the argument is `None` or the empty list (both falsy). -/
def effectivePatterns : Option (List PyStr) → List PyStr
  | none => default_patterns
  | some l => if l.isEmpty then default_patterns else l

/-- `SimpleAdblockInterceptor.__init__`: pick the argument or the defaults, then
lower-case every pattern (`self.patterns = [p.lower() for p in self.patterns]`). -/
def interceptorInit (patterns : Option (List PyStr)) : SimpleAdblockInterceptor :=
  ⟨(effectivePatterns patterns).map lowerStr⟩

/-- `SimpleAdblockInterceptor.interceptRequest`, as the block/allow decision it
computes: lower-case the URL and block iff any stored pattern occurs in it.
(The side-effecting `info.block(True)` call is the enforcement of this
decision; the decision itself is what the claims are about.) -/
def interceptRequest (i : SimpleAdblockInterceptor) (url : PyStr) : Bool :=
  i.patterns.any fun p => isSubstr p (lowerStr url)

/-! ## MainWindow's ad-block wiring (src/browser.py:187-199 and 562-573)

The `QSettings` store is modelled explicitly: `saved_patterns` is the value of
the `adblock/patterns` key (default `[]`), and the `adblock/enabled` flag is
the boolean the window caches in `self.adblock_enabled`. -/

/-- The window state the ad-block claims touch: the cached enabled flag and the
interceptor installed on the profile. -/
structure AdblockState where
  adblock_enabled : Bool
  interceptor : SimpleAdblockInterceptor
deriving DecidableEq

/-- `MainWindow.__init__` lines 187-195: read the enabled flag and the saved
patterns (empty list means "never saved", passed as `None`), and construct the
interceptor.  Note the interceptor is constructed and installed regardless of
the enabled flag. -/
def mainWindow_init_adblock (enabled : Bool) (saved_patterns : List PyStr) : AdblockState :=
  ⟨enabled, interceptorInit (if saved_patterns.isEmpty then none else some saved_patterns)⟩

/-- `MainWindow.toggle_adblock` (lines 562-573): flip the flag; when now
disabled, clear the active pattern list; when now enabled, restore the
patterns saved in the store — but only if that saved list is non-empty
(`if saved_patterns:`), and without lower-casing them. -/
def toggle_adblock (saved_patterns : List PyStr) (st : AdblockState) : AdblockState :=
  let enabled := !st.adblock_enabled
  if !enabled then ⟨enabled, ⟨[]⟩⟩
  else if saved_patterns.isEmpty then ⟨enabled, st.interceptor⟩
  else ⟨enabled, ⟨saved_patterns⟩⟩

/-! ## Extension loading (`MainWindow._load_extensions`, src/browser.py:316-351)

A bundle subdirectory is modelled by the states of its three candidate files.
`FileState.unreadable` covers "the file exists but reading/parsing it raises"
(the `except` arms of the three `try` blocks); for `manifest.json` that is a
JSON parse failure, for the two text files an I/O failure. -/

/-- State of one candidate file inside a bundle directory. -/
inductive FileState (α : Type) where
  | absent
  | unreadable
  | readable (content : α)
deriving DecidableEq

/-- A parsed `manifest.json` object.  The source only ever consumes its
`name` field (`manifest.get("name", ext_name)`), so only that field is
modelled. -/
structure Manifest where
  nameField : Option PyStr
deriving DecidableEq

/-- The empty dict `{}` the scanner starts from. -/
def Manifest.empty : Manifest := ⟨none⟩

/-- `manifest.get("name", fallback)`. -/
def Manifest.getNameD (m : Manifest) (fallback : PyStr) : PyStr :=
  m.nameField.getD fallback

/-- One subdirectory of the `extensions` root. -/
structure Bundle where
  dirName : PyStr
  manifest_json : FileState Manifest
  content_js : FileState PyStr
  styles_css : FileState PyStr
deriving DecidableEq

/-- One catalog entry (`entry` dict): the manifest always, and the two text
artifacts only when their key was written.  An unreadable file is written as
the empty string (`entry[...] = ""` in the `except` arms), so its key is
present with empty content. -/
structure ExtEntry where
  manifest : Manifest
  content_js : Option PyStr
  styles_css : Option PyStr
deriving DecidableEq

/-- The body of the two `content.js` / `styles.css` `try` blocks: no key when
the file is absent, empty string on read failure, the text otherwise. -/
def readTextFile : FileState PyStr → Option PyStr
  | .absent => none
  | .unreadable => some []
  | .readable s => some s

/-- The per-subdirectory body of `_load_extensions`: resolve the manifest and
name, read the two artifacts, and keep the entry only if at least one of the
two artifact keys was written.  On a present manifest (readable or not)
`manifest.get("name", ext_name)` runs; with a failed parse the dict is `{}`,
so the result is the directory name either way. -/
def loadExtension (b : Bundle) : Option (PyStr × ExtEntry) :=
  let manifest := match b.manifest_json with
    | .readable m => m
    | _ => Manifest.empty
  let extName := match b.manifest_json with
    | .readable m => m.getNameD b.dirName
    | _ => b.dirName
  let entry : ExtEntry := ⟨manifest, readTextFile b.content_js, readTextFile b.styles_css⟩
  if entry.content_js.isSome || entry.styles_css.isSome then some (extName, entry)
  else none

/-- Python dict assignment `d[k] = v`: replace in place if the key exists,
otherwise append (insertion order is preserved). -/
def dictInsert (d : List (PyStr × ExtEntry)) (k : PyStr) (v : ExtEntry) :
    List (PyStr × ExtEntry) :=
  if d.any fun kv => kv.1 == k then
    d.map fun kv => if kv.1 == k then (k, v) else kv
  else d ++ [(k, v)]

/-- `MainWindow._load_extensions`: fold the scan over the subdirectories of the
extensions root (given in iteration order; non-directories are skipped before
this point) building the `self.extensions` dict. -/
def load_extensions (bundles : List Bundle) : List (PyStr × ExtEntry) :=
  bundles.foldl (fun acc b =>
    match loadExtension b with
    | none => acc
    | some (n, e) => dictInsert acc n e) []

/-! ## Extension injection (`MainWindow._inject_extensions`, src/browser.py:353-371) -/

/-- A simplified model of Python's `repr` for `str` (the `%r` conversion):
single-quoted, with backslash, quote and the common control characters
escaped.  (CPython switches quote style and escapes further non-printables;
no claim depends on that refinement.) -/
def pyReprChar (c : Char) : PyStr :=
  if c = '\\' then pystr "\\\\"
  else if c = '\x27' then pystr "\\\x27"
  else if c = '\n' then pystr "\\n"
  else if c = '\r' then pystr "\\r"
  else if c = '\t' then pystr "\\t"
  else [c]

/-- The model of `repr(s)` / `"%r" % s`. -/
def pyRepr (s : PyStr) : PyStr :=
  pystr "\x27" ++ (s.map pyReprChar).foldr (· ++ ·) [] ++ pystr "\x27"

/-- The script `_inject_extensions` synthesizes for a stylesheet: create a
style element, set its text content to the raw CSS (delivered through `%r`),
and append it to the document head. -/
def cssInjectionScript (css : PyStr) : PyStr :=
  pystr "(function()\x7bvar style=document.createElement(\x27style\x27);style.textContent="
    ++ pyRepr css
    ++ pystr ";document.head.appendChild(style);\x7d)();"

/-- `MainWindow._inject_extensions` as the ordered list of
`view.page().runJavaScript(...)` calls it issues on one pass: first the
wrapped stylesheet of every catalog entry with a truthy `styles_css`, then
the raw `content_js` of every entry with a truthy `content_js`, both in
catalog enumeration order. -/
def inject_extensions (catalog : List (PyStr × ExtEntry)) : List PyStr :=
  (catalog.filterMap fun kv =>
    match kv.2.styles_css with
    | some css => if css.isEmpty then none else some (cssInjectionScript css)
    | none => none)
  ++ (catalog.filterMap fun kv =>
    match kv.2.content_js with
    | some js => if js.isEmpty then none else some js
    | none => none)

/-! ## Bookmarks (`MainWindow._load_bookmarks` / `_save_bookmarks`,
src/browser.py:410-433)

A `QListWidget` bookmark row is its visible text (the title) and its
`Qt.UserRole` data (the URL), which can be unset (`None`). -/

/-- One row of the bookmark list widget. -/
structure BookmarkItem where
  text : PyStr
  data : Option PyStr
deriving DecidableEq

/-- The per-row body of `_save_bookmarks`:
`url = item.data(Qt.UserRole) or ""`, `title = item.text() or url`,
entry `f"{title}|{url}"`. -/
def encodeBookmark (it : BookmarkItem) : PyStr :=
  let url := it.data.getD []
  let title := if it.text.isEmpty then url else it.text
  title ++ pystr "|" ++ url

/-- `MainWindow._save_bookmarks`: encode every row, in list order. -/
def save_bookmarks (items : List BookmarkItem) : List PyStr :=
  items.map encodeBookmark

/-- Python's `entry.split("|", 1)` under the guarantee that `entry` contains a
bar: the part before the first `|` and everything after it. -/
def splitOnFirstBar : PyStr → PyStr × PyStr
  | [] => ([], [])
  | c :: cs =>
    if c = '|' then ([], cs)
    else
      let r := splitOnFirstBar cs
      (c :: r.1, r.2)

/-- The per-entry body of `_load_bookmarks`: a string entry containing `|` is
split on the first bar into title and URL; any other entry is used whole as
both title and URL (the legacy fallback branch). -/
def decodeBookmark (entry : PyStr) : BookmarkItem :=
  if isSubstr (pystr "|") entry then
    let r := splitOnFirstBar entry
    ⟨r.1, some r.2⟩
  else ⟨entry, some entry⟩

/-- `MainWindow._load_bookmarks`: decode every stored entry, in order.  (The
store is modelled as holding strings; the source's `isinstance(entry, str)`
test also routes non-string values to the fallback branch, which is outside
this model.) -/
def load_bookmarks (raw : List PyStr) : List BookmarkItem :=
  raw.map decodeBookmark

/-! ## URL normalization (`normalize_url`, src/browser.py:31-39)

`QUrl(t)` is modelled as the text `t` itself, and
`QUrl.toPercentEncoding` as `percentEncode`: every byte of the UTF-8
encoding is kept literally when it is an unreserved character
(alphanumeric or `-._~`) and `%HH`-escaped otherwise, which is Qt's
default behaviour for that function. -/

/-- The home page constant `HOME_URL`. -/
def HOME_URL : PyStr := pystr "https://duckduckgo.com/"

/-- Upper-case hexadecimal digit of a value below 16. -/
def hexDigitChar (n : Nat) : Char :=
  if n < 10 then Char.ofNat (48 + n) else Char.ofNat (55 + n)

/-- UTF-8 encoding of one code point, as byte values. -/
def utf8Bytes (n : Nat) : List Nat :=
  if n < 0x80 then [n]
  else if n < 0x800 then [0xC0 + n / 64, 0x80 + n % 64]
  else if n < 0x10000 then [0xE0 + n / 4096, 0x80 + (n / 64) % 64, 0x80 + n % 64]
  else [0xF0 + n / 262144, 0x80 + (n / 4096) % 64, 0x80 + (n / 64) % 64, 0x80 + n % 64]

/-- Is a character kept literally by `QUrl.toPercentEncoding`? -/
def isUnreservedChar (c : Char) : Bool :=
  c.isAlphanum || c = '-' || c = '.' || c = '_' || c = '~'

/-- Model of `QUrl.toPercentEncoding` (with its default exclude/include sets). -/
def percentEncode (s : PyStr) : PyStr :=
  (s.map fun c =>
    if isUnreservedChar c then [c]
    else (utf8Bytes c.toNat).foldr (fun b acc => '%' :: hexDigitChar (b / 16) :: hexDigitChar (b % 16) :: acc) []
  ).foldr (· ++ ·) []

/-- `normalize_url`: strip the text; empty goes home; a space-free dotted
scheme-less text gets `https://`; a scheme-less text with a space or no dot
becomes a DuckDuckGo search; anything else is passed through to `QUrl`. -/
def normalize_url (text0 : PyStr) : PyStr :=
  let text := pyStrip text0
  if text.isEmpty then HOME_URL
  else if !isSubstr (pystr " ") text && isSubstr (pystr ".") text
          && !isSubstr (pystr "://") text then
    pystr "https://" ++ text
  else if !isSubstr (pystr "://") text
          && (isSubstr (pystr " ") text || !isSubstr (pystr ".") text) then
    pystr "https://duckduckgo.com/?q=" ++ percentEncode text
  else text

/-- Modelled from the claim text of C10, read literally: the emptiness test is
on the whitespace-stripped input, but the three remaining cases inspect (and
return) the raw input string. -/
def claim_normalize_url (text : PyStr) : PyStr :=
  if (pyStrip text).isEmpty then HOME_URL
  else if !text.contains ' ' && text.contains '.' && !isSubstr (pystr "://") text then
    pystr "https://" ++ text
  else if !isSubstr (pystr "://") text && (text.contains ' ' || !text.contains '.') then
    pystr "https://duckduckgo.com/?q=" ++ percentEncode text
  else text

/-- The amended reading of the C10 claim: the same trichotomy, applied to the
whitespace-stripped input throughout. -/
def claim_normalize_url_stripped (text0 : PyStr) : PyStr :=
  let text := pyStrip text0
  if text.isEmpty then HOME_URL
  else if !text.contains ' ' && text.contains '.' && !isSubstr (pystr "://") text then
    pystr "https://" ++ text
  else if !isSubstr (pystr "://") text && (text.contains ' ' || !text.contains '.') then
    pystr "https://duckduckgo.com/?q=" ++ percentEncode text
  else text

/-! ## Claim theorems -/

/-- C1: for every configured pattern list (or `None`, taking the built-in
defaults) and every URL, the interceptor's decision is "block" exactly when
some configured pattern, lower-cased, occurs as a substring of the
lower-cased URL; and with an empty active pattern list — a pattern list `P`
that is empty, which is also the state `toggle_adblock` installs when the
filter is disabled — every URL is allowed. -/
theorem C1_shouldBlock_iff (P₀ : Option (List PyStr)) (u : PyStr) :
    (interceptRequest (interceptorInit P₀) u = true ↔
      ∃ p ∈ effectivePatterns P₀, lowerStr p <:+: lowerStr u)
    ∧ interceptRequest ⟨[]⟩ u = false := by
  constructor
  · unfold interceptRequest interceptorInit
    simp only [List.any_eq_true, List.mem_map]
    constructor
    · rintro ⟨x, ⟨p, hp, rfl⟩, hsub⟩
      exact ⟨p, hp, (isSubstr_iff _ _).mp hsub⟩
    · rintro ⟨p, hp, hsub⟩
      exact ⟨lowerStr p, ⟨p, hp, rfl⟩, (isSubstr_iff _ _).mpr hsub⟩
  · rfl

/-- C2: evaluation of `toggle_adblock` at the failing input.  On a fresh
profile (nothing ever saved under `adblock/patterns`, so the store value is
`[]`) the window starts with the lower-cased built-in defaults; after
toggling the filter off and back on, the active pattern list is empty — the
pre-toggle list (the defaults) is NOT restored, although the enabled flag
reads true again. -/
theorem C2_toggle_twice_empty_store_clears :
    (toggle_adblock [] (toggle_adblock [] (mainWindow_init_adblock true []))).interceptor.patterns = []
    ∧ (toggle_adblock [] (toggle_adblock [] (mainWindow_init_adblock true []))).adblock_enabled = true
    ∧ (mainWindow_init_adblock true []).interceptor.patterns = default_patterns
    ∧ default_patterns ≠ [] := by
  refine ⟨by decide, by decide, by decide, by decide⟩

/-- C3 counterexample: on the re-enable path `toggle_adblock` assigns the
saved store value verbatim, so with `adblock/patterns` holding `["ADS"]`
the filter ends up holding a pattern that is not lower-case, refuting
"pattern lowercasing happens ... on every path that sets patterns". -/
theorem C3_restore_not_lowercased :
    ¬ ∀ p ∈ (toggle_adblock [pystr "ADS"]
        (toggle_adblock [pystr "ADS"]
          (mainWindow_init_adblock true [pystr "ADS"]))).interceptor.patterns,
      lowerStr p = p := by decide

/-- C3 amended: lower-casing happens at set-time on both construction paths
(built-in defaults and saved patterns), so every pattern held after
construction is lower-case; the `toggle_adblock` re-enable path instead
assigns the saved pattern list verbatim, without lower-casing. -/
theorem C3_set_time_lowercasing (P₀ : Option (List PyStr)) (p : PyStr)
    (hp : p ∈ (interceptorInit P₀).patterns)
    (saved : List PyStr) (st : AdblockState)
    (hst : st.adblock_enabled = false) (hs : saved ≠ []) :
    lowerStr p = p ∧ (toggle_adblock saved st).interceptor.patterns = saved := by
  constructor
  · simp only [interceptorInit, List.mem_map] at hp
    rcases hp with ⟨q, _, rfl⟩
    exact lowerStr_idem q
  · unfold toggle_adblock
    rw [hst]
    simp [List.isEmpty_eq_true, hs]

/-- C3 amended, witnessed at a concrete input: a built-in pattern is
lower-case in the constructed filter, and re-enabling with a non-empty saved
list installs exactly that list. -/
theorem C3_set_time_lowercasing_witness :
    lowerStr (pystr "doubleclick.net") = pystr "doubleclick.net"
    ∧ (toggle_adblock [pystr "x"] ⟨false, ⟨[]⟩⟩).interceptor.patterns = [pystr "x"] :=
  C3_set_time_lowercasing none (pystr "doubleclick.net") (by decide)
    [pystr "x"] ⟨false, ⟨[]⟩⟩ rfl (by decide)

/-- C4 counterexample: a bundle whose only script/style file exists but is
unreadable is NOT dropped from the catalog — the `except` arm writes the key
with the empty string, so the `"content_js" in entry` membership test
succeeds and the bundle is retained. -/
theorem C4_unreadable_only_bundle_kept :
    load_extensions [⟨pystr "x", .absent, .unreadable, .absent⟩]
      = [(pystr "x", ⟨Manifest.empty, some [], none⟩)]
    ∧ load_extensions [⟨pystr "x", .absent, .unreadable, .absent⟩] ≠ [] := by
  refine ⟨by decide, by decide⟩

/-- C4 amended: a read failure of `content.js` or `styles.css` does not
prevent loading the bundle's other artifacts; the failed artifact's content
is recorded as the empty string.  Consequently a bundle whose only
script/style files are unreadable stays in the returned catalog (its keys
are present) but contributes no injection, since empty artifacts are
skipped by `_inject_extensions`. -/
theorem C4_read_failure_isolated (d : PyStr) (m : FileState Manifest) (s : PyStr) :
    ((loadExtension ⟨d, m, .unreadable, .readable s⟩).map
        fun kv => (kv.2.content_js, kv.2.styles_css)) = some (some [], some s)
    ∧ ((loadExtension ⟨d, m, .readable s, .unreadable⟩).map
        fun kv => (kv.2.content_js, kv.2.styles_css)) = some (some s, some [])
    ∧ ((loadExtension ⟨d, m, .unreadable, .unreadable⟩).map
        fun kv => (kv.2.content_js, kv.2.styles_css)) = some (some [], some [])
    ∧ inject_extensions (load_extensions [⟨d, m, .unreadable, .unreadable⟩]) = [] := by
  cases m <;> exact ⟨rfl, rfl, rfl, rfl⟩

/-- C5: a bundle whose `manifest.json` is present but fails to parse is
scanned on: the manifest falls back to the empty dict, the resolved name is
the directory name, and a readable `content.js` is carried into the catalog
intact — whatever the state of `styles.css`. -/
theorem C5_malformed_manifest_nonfatal (d js : PyStr) (sc : FileState PyStr) :
    ∃ e : ExtEntry,
      load_extensions [⟨d, .unreadable, .readable js, sc⟩] = [(d, e)]
      ∧ e.manifest = Manifest.empty ∧ e.content_js = some js := by
  cases sc with
  | absent => exact ⟨⟨Manifest.empty, some js, none⟩, rfl, rfl, rfl⟩
  | unreadable => exact ⟨⟨Manifest.empty, some js, some []⟩, rfl, rfl, rfl⟩
  | readable s => exact ⟨⟨Manifest.empty, some js, some s⟩, rfl, rfl, rfl⟩

/-- C6: a bundle holding only a readable `styles.css` is catalogued under its
directory name with no content-script entry, while a bundle directory with no
files at all is processed by the scan (`loadExtension` runs and yields
nothing) and is excluded from the catalog. -/
theorem C6_catalog_membership (d css : PyStr) :
    load_extensions [⟨d, .absent, .absent, .readable css⟩]
      = [(d, ⟨Manifest.empty, none, some css⟩)]
    ∧ loadExtension ⟨d, .absent, .absent, .absent⟩ = none
    ∧ load_extensions [⟨d, .absent, .absent, .absent⟩] = [] :=
  ⟨rfl, rfl, rfl⟩

theorem splitOnFirstBar_append (t u : PyStr) (ht : '|' ∉ t) :
    splitOnFirstBar (t ++ '|' :: u) = (t, u) := by
  induction t with
  | nil => simp [splitOnFirstBar]
  | cons c cs ih =>
    have hc : c ≠ '|' := fun h => ht (h ▸ List.mem_cons_self c cs)
    have hcs : '|' ∉ cs := fun h => ht (List.mem_cons_of_mem c h)
    simp [splitOnFirstBar, hc, ih hcs]

theorem decode_encode (t u : PyStr) (ht : '|' ∉ t) (he : t = [] → u = []) :
    decodeBookmark (encodeBookmark ⟨t, some u⟩) = ⟨t, some u⟩ := by
  by_cases h0 : t = []
  · subst h0
    rw [he rfl]
    decide
  · have hbarlit : pystr "|" = ['|'] := by decide
    have henc : encodeBookmark ⟨t, some u⟩ = t ++ '|' :: u := by
      unfold encodeBookmark
      simp [List.isEmpty_eq_true, h0, hbarlit]
    have hbar : isSubstr (pystr "|") (t ++ '|' :: u) = true := by
      refine (isSubstr_iff _ _).mpr ⟨t, u, ?_⟩
      simp [hbarlit]
    rw [henc]
    unfold decodeBookmark
    rw [if_pos hbar, splitOnFirstBar_append t u ht]

/-- C7 counterexample: a pair with an empty title and a non-empty URL (both
bar-free) does not survive the round trip — `_save_bookmarks` substitutes the
URL for the empty title (`title = item.text() or url`), so decoding returns
the URL as the title. -/
theorem C7_empty_title_breaks_roundtrip :
    load_bookmarks (save_bookmarks [⟨[], some (pystr "x")⟩]) ≠ [⟨[], some (pystr "x")⟩]
    ∧ load_bookmarks (save_bookmarks [⟨[], some (pystr "x")⟩])
        = [⟨pystr "x", some (pystr "x")⟩] := by
  refine ⟨by decide, by decide⟩

/-- C7 amended: encoding then decoding an ordered list of `(title, url)`
pairs returns the original list unchanged and in order, provided titles and
URLs are `|`-free and no pair has an empty title alongside a non-empty URL
(saving coalesces an empty title to the URL). -/
theorem C7_bookmark_roundtrip (l : List (PyStr × PyStr))
    (h : ∀ p ∈ l, '|' ∉ p.1 ∧ '|' ∉ p.2 ∧ (p.1 = [] → p.2 = [])) :
    load_bookmarks (save_bookmarks (l.map fun p => ⟨p.1, some p.2⟩))
      = l.map fun p => ⟨p.1, some p.2⟩ := by
  unfold load_bookmarks save_bookmarks
  rw [List.map_map, List.map_map]
  refine List.map_congr_left fun p hp => ?_
  exact decode_encode p.1 p.2 (h p hp).1 (h p hp).2.2

/-- C7 amended, witnessed on a concrete bookmark list. -/
theorem C7_bookmark_roundtrip_witness :
    load_bookmarks (save_bookmarks
        ([(pystr "DuckDuckGo", pystr "https://duckduckgo.com/")].map fun p => ⟨p.1, some p.2⟩))
      = [(pystr "DuckDuckGo", pystr "https://duckduckgo.com/")].map fun p =>
          (⟨p.1, some p.2⟩ : BookmarkItem) :=
  C7_bookmark_roundtrip _ (by decide)

/-- C8: a stored bookmark entry with no `|` character decodes through the
legacy fallback branch to an item whose title and URL are both the entire
entry. -/
theorem C8_legacy_decode (entry : PyStr) (h : isSubstr (pystr "|") entry = false) :
    decodeBookmark entry = ⟨entry, some entry⟩
    ∧ load_bookmarks [entry] = [⟨entry, some entry⟩] := by
  have hd : decodeBookmark entry = ⟨entry, some entry⟩ := by
    unfold decodeBookmark
    rw [if_neg (by simp [h])]
  exact ⟨hd, by simp [load_bookmarks, hd]⟩

/-- C8 witnessed at a concrete bar-free entry. -/
theorem C8_legacy_decode_witness :
    decodeBookmark (pystr "duckduckgo.com") = ⟨pystr "duckduckgo.com", some (pystr "duckduckgo.com")⟩
    ∧ load_bookmarks [pystr "duckduckgo.com"]
        = [⟨pystr "duckduckgo.com", some (pystr "duckduckgo.com")⟩] :=
  C8_legacy_decode (pystr "duckduckgo.com") (by decide)

/-- The stylesheet half of one injection pass. -/
def injectStyles (catalog : List (PyStr × ExtEntry)) : List PyStr :=
  catalog.filterMap fun kv =>
    match kv.2.styles_css with
    | some css => if css.isEmpty then none else some (cssInjectionScript css)
    | none => none

/-- The content-script half of one injection pass. -/
def injectScripts (catalog : List (PyStr × ExtEntry)) : List PyStr :=
  catalog.filterMap fun kv =>
    match kv.2.content_js with
    | some js => if js.isEmpty then none else some js
    | none => none

theorem inject_extensions_eq (catalog : List (PyStr × ExtEntry)) :
    inject_extensions catalog = injectStyles catalog ++ injectScripts catalog := rfl

/-- C9: on one injection pass, every catalog entry carrying a non-empty
stylesheet has its CSS pushed wrapped in the synthesized
create-style-element/set-textContent/append-to-head script; and whenever the
same entry also carries a non-empty content script, the wrapped stylesheet
call occurs at a strictly earlier position of the pass than that entry's
script call. -/
theorem C9_injection (catalog : List (PyStr × ExtEntry)) (n : PyStr) (e : ExtEntry)
    (hmem : (n, e) ∈ catalog) (css : PyStr)
    (hcss : e.styles_css = some css) (hne : css ≠ []) :
    cssInjectionScript css ∈ inject_extensions catalog
    ∧ ∀ js : PyStr, e.content_js = some js → js ≠ [] →
      ∃ i j : Nat, i < j
        ∧ (inject_extensions catalog)[i]? = some (cssInjectionScript css)
        ∧ (inject_extensions catalog)[j]? = some js := by
  have hstyle : cssInjectionScript css ∈ injectStyles catalog := by
    refine List.mem_filterMap.mpr ⟨(n, e), hmem, ?_⟩
    simp only [hcss]
    rw [if_neg (by simpa [List.isEmpty_eq_true] using hne)]
  constructor
  · rw [inject_extensions_eq]
    exact List.mem_append_left _ hstyle
  · intro js hjs hjne
    have hscript : js ∈ injectScripts catalog := by
      refine List.mem_filterMap.mpr ⟨(n, e), hmem, ?_⟩
      simp only [hjs]
      rw [if_neg (by simpa [List.isEmpty_eq_true] using hjne)]
    rcases List.mem_iff_getElem?.mp hstyle with ⟨i, hi⟩
    rcases List.mem_iff_getElem?.mp hscript with ⟨k, hk⟩
    have hilt : i < (injectStyles catalog).length :=
      (List.getElem?_eq_some_iff.mp hi).1
    refine ⟨i, (injectStyles catalog).length + k, by omega, ?_, ?_⟩
    · rw [inject_extensions_eq, List.getElem?_append_left hilt]
      exact hi
    · rw [inject_extensions_eq, List.getElem?_append_right (by omega)]
      simpa using hk

/-- C9 witnessed on a one-entry catalog carrying both artifacts. -/
theorem C9_injection_witness :
    cssInjectionScript (pystr "c")
      ∈ inject_extensions [(pystr "a", ⟨Manifest.empty, some (pystr "j"), some (pystr "c")⟩)]
    ∧ ∀ js : PyStr,
        (⟨Manifest.empty, some (pystr "j"), some (pystr "c")⟩ : ExtEntry).content_js = some js →
        js ≠ [] →
      ∃ i j : Nat, i < j
        ∧ (inject_extensions [(pystr "a", ⟨Manifest.empty, some (pystr "j"), some (pystr "c")⟩)])[i]?
            = some (cssInjectionScript (pystr "c"))
        ∧ (inject_extensions [(pystr "a", ⟨Manifest.empty, some (pystr "j"), some (pystr "c")⟩)])[j]?
            = some js :=
  C9_injection [(pystr "a", ⟨Manifest.empty, some (pystr "j"), some (pystr "c")⟩)]
    (pystr "a") ⟨Manifest.empty, some (pystr "j"), some (pystr "c")⟩
    (by decide) (pystr "c") rfl (by decide)

/-- C10 counterexample: on the input `"a.b "` (trailing space) the claim's
literal case split picks the search branch (the raw input contains a space),
while the code strips first and returns `"https://a.b"`. -/
theorem C10_counterexample :
    normalize_url (pystr "a.b ") ≠ claim_normalize_url (pystr "a.b ")
    ∧ normalize_url (pystr "a.b ") = pystr "https://a.b"
    ∧ claim_normalize_url (pystr "a.b ") = pystr "https://duckduckgo.com/?q=a.b%20" := by
  refine ⟨by decide, by decide, by decide⟩

/-- C10 amended: `normalize_url` realizes the claim's case analysis applied to
the whitespace-stripped input: stripped-empty goes to the home URL; a
space-free stripped input containing `.` but no `://` is returned with
`https://` prefixed; a scheme-less stripped input containing a space or no
`.` becomes a DuckDuckGo search over the percent-encoded stripped input; any
other input is returned (as parsed by `QUrl`) stripped but otherwise as-is. -/
theorem C10_normalize_url_cases (s : PyStr) :
    normalize_url s = claim_normalize_url_stripped s := by
  have hsp : pystr " " = [' '] := by decide
  have hdot : pystr "." = ['.'] := by decide
  unfold normalize_url claim_normalize_url_stripped
  rw [hsp, hdot]
  simp only [isSubstr_singleton]
